import Mathlib

/-!
Shallow embedding of the Brzozowski-derivative regex matcher in src/main.cpp.

The C++ node type `RegexPtr = std::shared_ptr<Regex>` is a nullable pointer to
an immutable node; we model a non-null node by the inductive type `Regex` and a
possibly-null `RegexPtr` by `Option Regex` (`none` = `nullptr`).  The interning
caches of the smart constructors only affect pointer identity, never the value
a pointer denotes (a cache hit returns a node previously built from the same
key), so the value-level model below drops them; pointer equality (`a == b` on
`shared_ptr`) is modelled by value equality, which pointer equality implies.
A separate store-level model (`namespace Intern`) keeps pointers and caches
explicit for the identity/interning claims.

Undefined behaviour of `std::stack::top`/`pop` on an empty stack is made
explicit: the parser returns `ParseErr.stackUnderflow` there, while every
`throw std::runtime_error(msg)` becomes `ParseErr.syntaxError msg`.
-/

/-- The six node variants of the C++ class hierarchy
(`Emp`, `Eps`, `Char`, `Or`, `Concat`, `Star`). -/
inductive Regex where
  | emp : Regex
  | eps : Regex
  | char (c : Char) : Regex
  | or (r1 r2 : Regex) : Regex
  | concat (r1 r2 : Regex) : Regex
  | star (r1 : Regex) : Regex
deriving DecidableEq, Repr

/-- `Or::create` (src/main.cpp lines 66-76): null checks, the identity
short-circuit `a == b`, then cache lookup or construction of `Or(a, b)`
(value-level: both cache hit and miss denote the node `Regex.or a b`). -/
def Or.create : Option Regex → Option Regex → Option Regex
  | none, b => b
  | some a, none => some a
  | some a, some b => if a = b then some a else some (Regex.or a b)

/-- `Concat::create` (lines 87-96): like `Or::create` but with no `a == b`
short-circuit. -/
def Concat.create : Option Regex → Option Regex → Option Regex
  | none, b => b
  | some a, none => some a
  | some a, some b => some (Regex.concat a b)

/-- `Star::create` (lines 113-120): an absent operand yields the `Eps`
singleton, otherwise the node `Star(a)`. -/
def Star.create : Option Regex → Option Regex
  | none => some Regex.eps
  | some a => some (Regex.star a)

/-- `is_contain_eps` (nullability), the virtual method of each variant
(lines 26, 37, 45, 77, 97, 121). -/
def Regex.is_contain_eps : Regex → Bool
  | .emp => false
  | .eps => true
  | .char _ => false
  | .or a b => a.is_contain_eps || b.is_contain_eps
  | .concat a b => a.is_contain_eps && b.is_contain_eps
  | .star _ => true

/-- `derive`, the virtual method of each variant (lines 27, 38, 46-48, 78,
98-104, 122).  The C++ method returns `RegexPtr`, hence `Option Regex`; the
recursive calls feed the smart constructors exactly as in the source. -/
def Regex.derive : Regex → Char → Option Regex
  | .emp, _ => some .emp
  | .eps, _ => some .emp
  | .char x, c => if x = c then some .eps else some .emp
  | .or a b, c => Or.create (a.derive c) (b.derive c)
  | .concat a b, c =>
      if a.is_contain_eps then
        Or.create (Concat.create (a.derive c) (some b)) (b.derive c)
      else
        Concat.create (a.derive c) (some b)
  | .star a, c => Concat.create (a.derive c) (Star.create (some a))

/-- One step of the loop body of `is_match`: `result = result->derive(c)`.
Calling `derive` through a null `RegexPtr` is undefined in C++; it is `none`
here. -/
def deriveOpt (r : Option Regex) (c : Char) : Option Regex :=
  match r with
  | none => none
  | some x => x.derive c

/-- `is_match` (lines 126-130): fold `derive` over the text left to right,
then ask `is_contain_eps` of the final node. -/
def is_match (regex : Option Regex) (text : List Char) : Option Bool :=
  match text.foldl deriveOpt regex with
  | none => none
  | some r => some r.is_contain_eps

/-- Outcomes of `parse_regex`: a thrown `std::runtime_error` with its message,
or the undefined behaviour of `top`/`pop` on an empty `std::stack`. -/
inductive ParseErr where
  | syntaxError (msg : String) : ParseErr
  | stackUnderflow : ParseErr
deriving DecidableEq, Repr

/-- The `apply_op` lambda (lines 136-146): `|` and `.` pop two operands and
push the smart-constructed node; any other operator is a no-op.  Fewer than
two operands on the stack is an empty-stack `top`/`pop` in the C++. -/
def apply_op (op : Char) (operands : List (Option Regex)) :
    Except ParseErr (List (Option Regex)) :=
  if op = '|' then
    match operands with
    | b :: a :: rest => .ok (Or.create a b :: rest)
    | _ => .error .stackUnderflow
  else if op = '.' then
    match operands with
    | b :: a :: rest => .ok (Concat.create a b :: rest)
    | _ => .error .stackUnderflow
  else
    .ok operands

/-- The `precedence` lambda (lines 148-155). -/
def precedence (op : Char) : Nat :=
  if op = '*' then 4
  else if op = '+' then 4
  else if op = '?' then 4
  else if op = '.' then 3
  else if op = '|' then 2
  else 0

/-- The `process_stack` lambda (lines 157-162): pop and apply operators of
higher or equal precedence. -/
def process_stack (op : Char) :
    List Char → List (Option Regex) →
    Except ParseErr (List Char × List (Option Regex))
  | [], operands => .ok ([], operands)
  | t :: rest, operands =>
    if precedence t ≥ precedence op then
      match apply_op t operands with
      | .error e => .error e
      | .ok operands2 => process_stack op rest operands2
    else
      .ok (t :: rest, operands)

/-- The `while` loop of the `)` branch (line 174): apply operators until an
opening parenthesis is on top (which is left in place) or the operator stack
runs out. -/
def close_paren :
    List Char → List (Option Regex) →
    Except ParseErr (List Char × List (Option Regex))
  | [], operands => .ok ([], operands)
  | t :: rest, operands =>
    if t = '(' then .ok (t :: rest, operands)
    else
      match apply_op t operands with
      | .error e => .error e
      | .ok operands2 => close_paren rest operands2

/-- The mutable locals of `parse_regex`: operator stack `ops`, operand stack
`operands`, and the `prev` pointer (nullable). -/
structure PState where
  ops : List Char
  operands : List (Option Regex)
  prev : Option Regex
deriving DecidableEq, Repr

/-- The dispatch on one (already escape-resolved) symbol, lines 172-197.
Note that the C++ reaches this same dispatch for an escaped symbol too: the
escape block only rebinds `c` and falls through. -/
def parse_step (c : Char) (st : PState) : Except ParseErr PState :=
  if c = '(' then
    .ok { st with ops := '(' :: st.ops, prev := none }
  else if c = ')' then
    match close_paren st.ops st.operands with
    | .error e => .error e
    | .ok (ops2, operands2) =>
      match ops2 with
      | [] => .error (.syntaxError "Mismatched parentheses")
      | _ :: ops3 =>
        match operands2 with
        | [] => .error .stackUnderflow
        | x :: _ => .ok { ops := ops3, operands := operands2, prev := x }
  else if c = '*' ∨ c = '+' ∨ c = '?' then
    match st.prev with
    | none => .error (.syntaxError (String.singleton c ++ " cannot appear at start"))
    | some _ =>
      match st.operands with
      | [] => .error .stackUnderflow
      | _ :: operandsRest =>
        let r : Option Regex :=
          if c = '*' then Star.create st.prev
          else if c = '+' then Concat.create st.prev (Star.create st.prev)
          else Or.create (some .eps) st.prev
        .ok { st with operands := r :: operandsRest, prev := r }
  else if c = '|' then
    match process_stack '|' st.ops st.operands with
    | .error e => .error e
    | .ok (ops2, operands2) =>
      .ok { ops := '|' :: ops2, operands := operands2, prev := none }
  else
    let r : Option Regex := some (.char c)
    if st.prev.isSome then
      match process_stack '.' st.ops st.operands with
      | .error e => .error e
      | .ok (ops2, operands2) =>
        .ok { ops := '.' :: ops2, operands := r :: operands2, prev := r }
    else
      .ok { st with operands := r :: st.operands, prev := r }

/-- The scanning loop of `parse_regex` (lines 165-198), with the escape
handling of lines 167-170: a backslash consumes the next symbol (error if
there is none) and the consumed symbol then goes through the ordinary
dispatch. -/
def parse_loop : List Char → PState → Except ParseErr PState
  | [], st => .ok st
  | '\\' :: rest, st =>
    match rest with
    | [] => .error (.syntaxError "Invalid escape")
    | c2 :: rest2 =>
      match parse_step c2 st with
      | .error e => .error e
      | .ok st2 => parse_loop rest2 st2
  | c :: rest, st =>
    match parse_step c st with
    | .error e => .error e
    | .ok st2 => parse_loop rest st2

/-- The final drain loop of `parse_regex` (lines 200-204). -/
def drain_ops :
    List Char → List (Option Regex) → Except ParseErr (List (Option Regex))
  | [], operands => .ok operands
  | t :: rest, operands =>
    if t = '(' ∨ t = ')' then .error (.syntaxError "Mismatched parentheses")
    else
      match apply_op t operands with
      | .error e => .error e
      | .ok operands2 => drain_ops rest operands2

/-- `parse_regex` (lines 132-208): run the scan from empty stacks, drain the
operator stack, and require exactly one operand. -/
def parse_regex (s : List Char) : Except ParseErr (Option Regex) :=
  match parse_loop s { ops := [], operands := [], prev := none } with
  | .error e => .error e
  | .ok st =>
    match drain_ops st.ops st.operands with
    | .error e => .error e
    | .ok operands2 =>
      match operands2 with
      | [x] => .ok x
      | _ => .error (.syntaxError "Invalid regex")

/-- The composition the CLI performs: `is_match(parse_regex(pattern), text)`. -/
def run_match (pattern text : String) : Except ParseErr (Option Bool) :=
  match parse_regex pattern.toList with
  | .error e => .error e
  | .ok r => .ok (is_match r text.toList)

/-- Total version of `derive`, for specification purposes: `derive` never
returns `none` (proved in `Regex.derive_isSome`), so the default is inert. -/
def Regex.derive1 (r : Regex) (c : Char) : Regex :=
  (r.derive c).getD .emp

namespace Intern

/-- `RegexKey` (src/main.cpp lines 51-59): a tag string plus the raw pointers
of the two operands.  Pointers are modelled as indices into the allocation
list of a `Store`. -/
structure RegexKey where
  type : String
  r1 : Nat
  r2 : Nat
deriving DecidableEq, Repr

/-- One allocated node, children given by their pointers. -/
inductive Cell where
  | emp : Cell
  | eps : Cell
  | char (c : Char) : Cell
  | or (r1 r2 : Nat) : Cell
  | concat (r1 r2 : Nat) : Cell
  | star (r1 : Nat) : Cell
deriving DecidableEq, Repr

/-- Lookup in an association list, modelling `cache.find(key)` of `std::map`
(insertion order of the list is irrelevant to the lookup result used here). -/
def assocFind {α : Type} [DecidableEq α] (key : α) : List (α × Nat) → Option Nat
  | [] => none
  | (k, v) :: rest => if k = key then some v else assocFind key rest

/-- The process state relevant to the smart constructors: the allocated nodes
and the three static caches (`Or::cache`, `Concat::cache`, `Star::cache`). -/
structure Store where
  cells : List Cell
  orCache : List (RegexKey × Nat)
  concatCache : List (RegexKey × Nat)
  starCache : List (Nat × Nat)
deriving DecidableEq, Repr

/-- The pointers of the `Emp` and `Eps` singletons, allocated once in
`Store.init` (lines 22-25 and 33-36). -/
def empId : Nat := 0

/-- Pointer of the `Eps` singleton. -/
def epsId : Nat := 1

/-- The store after the two lazily-initialized singletons exist. -/
def Store.init : Store :=
  { cells := [Cell.emp, Cell.eps], orCache := [], concatCache := [],
    starCache := [] }

/-- `Or::create` at the store level (lines 66-76): null checks, pointer
identity short-circuit, then lookup in `Or::cache` keyed by
`{"Or", a, b}`; on a miss a fresh node is allocated and cached. -/
def Or.create : Option Nat → Option Nat → Store → Option Nat × Store
  | none, b, st => (b, st)
  | some x, none, st => (some x, st)
  | some x, some y, st =>
    if x = y then (some x, st)
    else
      match assocFind (RegexKey.mk "Or" x y) st.orCache with
      | some p => (some p, st)
      | none =>
        (some st.cells.length,
         { st with cells := st.cells ++ [Cell.or x y],
                   orCache := (RegexKey.mk "Or" x y, st.cells.length) :: st.orCache })

/-- `Concat::create` at the store level (lines 87-96): like `Or::create`
but with no pointer-identity short-circuit. -/
def Concat.create : Option Nat → Option Nat → Store → Option Nat × Store
  | none, b, st => (b, st)
  | some x, none, st => (some x, st)
  | some x, some y, st =>
    match assocFind (RegexKey.mk "Concat" x y) st.concatCache with
    | some p => (some p, st)
    | none =>
      (some st.cells.length,
       { st with cells := st.cells ++ [Cell.concat x y],
                 concatCache := (RegexKey.mk "Concat" x y, st.cells.length) :: st.concatCache })

/-- `Star::create` at the store level (lines 113-120): an absent operand
yields the `Eps` singleton; otherwise lookup in `Star::cache` keyed by the
operand pointer, allocating and caching on a miss. -/
def Star.create : Option Nat → Store → Option Nat × Store
  | none, st => (some epsId, st)
  | some x, st =>
    match assocFind x st.starCache with
    | some p => (some p, st)
    | none =>
      (some st.cells.length,
       { st with cells := st.cells ++ [Cell.star x],
                 starCache := (x, st.cells.length) :: st.starCache })

end Intern

theorem Or.create_isSome (a b : Regex) : (Or.create (some a) (some b)).isSome := by
  simp only [Or.create]
  split <;> simp

theorem Concat.create_somes (u v : Regex) :
    Concat.create (some u) (some v) = some (Regex.concat u v) := rfl

theorem Star.create_some (u : Regex) :
    Star.create (some u) = some (Regex.star u) := rfl

theorem Regex.derive_isSome : ∀ (r : Regex) (c : Char), (r.derive c).isSome := by
  intro r
  induction r with
  | emp => intro c; simp [Regex.derive]
  | eps => intro c; simp [Regex.derive]
  | char x => intro c; simp only [Regex.derive]; split <;> simp
  | or a b iha ihb =>
    intro c
    obtain ⟨x, hx⟩ := Option.isSome_iff_exists.mp (iha c)
    obtain ⟨y, hy⟩ := Option.isSome_iff_exists.mp (ihb c)
    simp only [Regex.derive, hx, hy]
    exact Or.create_isSome x y
  | concat a b iha ihb =>
    intro c
    obtain ⟨x, hx⟩ := Option.isSome_iff_exists.mp (iha c)
    obtain ⟨y, hy⟩ := Option.isSome_iff_exists.mp (ihb c)
    simp only [Regex.derive, hx, hy]
    split
    · rw [Concat.create_somes]
      exact Or.create_isSome _ _
    · simp [Concat.create]
  | star a iha =>
    intro c
    obtain ⟨x, hx⟩ := Option.isSome_iff_exists.mp (iha c)
    simp [Regex.derive, hx, Star.create_some, Concat.create]

theorem Regex.derive_eq_some (r : Regex) (c : Char) :
    r.derive c = some (r.derive1 c) := by
  cases h : r.derive c with
  | none => exact absurd (Regex.derive_isSome r c) (by simp [h])
  | some x => simp [Regex.derive1, h]

theorem foldl_deriveOpt (text : List Char) (root : Regex) :
    text.foldl deriveOpt (some root) = some (text.foldl Regex.derive1 root) := by
  induction text generalizing root with
  | nil => rfl
  | cons c cs ih =>
    simp only [List.foldl_cons, deriveOpt]
    rw [Regex.derive_eq_some]
    exact ih (root.derive1 c)

/-- C1: the claim says a backslash-escaped symbol is treated as a literal, so
`matches(parse("\(a\)"), "(a)")` should be true.  The code instead rebinds
`c` and falls through to the metacharacter dispatch, so `\(` opens a group
and `\)` closes it: `parse("\(a\)")` yields the bare literal node `a` and the
match against the text `(a)` is false. -/
theorem c1_escape_falls_through_eval :
    parse_regex ("\\(a\\)".toList) = .ok (some (Regex.char 'a')) ∧
    run_match "\\(a\\)" "(a)" = .ok (some false) :=
  ⟨rfl, rfl⟩

/-- C2: the claim says adjacency is concatenation uniformly, so
`parse("a(b)")` should succeed and match `ab`.  The `(` branch of the parser
never consults `prev`, so no implicit concatenation operator is inserted
before a group: the scan ends with two operands and the code throws
`runtime_error("Invalid regex")`. -/
theorem c2_no_concat_before_paren_eval :
    parse_regex ("a(b)".toList) = .error (.syntaxError "Invalid regex") :=
  rfl

/-- C3: the derivative of every variant follows the Brzozowski rules, built
via the smart constructors: Empty and Epsilon derive to Empty, a literal
derives to Epsilon exactly on its own symbol, and the Or/Concat/Star rules
are as stated, with the nullability test on the left factor of Concat. -/
theorem c3_derive_rules (a b : Regex) (x c : Char) :
    Regex.emp.derive c = some Regex.emp ∧
    Regex.eps.derive c = some Regex.emp ∧
    (Regex.char x).derive c = (if x = c then some Regex.eps else some Regex.emp) ∧
    (Regex.or a b).derive c = Or.create (a.derive c) (b.derive c) ∧
    (Regex.concat a b).derive c =
      (if a.is_contain_eps then
        Or.create (Concat.create (a.derive c) (some b)) (b.derive c)
      else
        Concat.create (a.derive c) (some b)) ∧
    (Regex.star a).derive c = Concat.create (a.derive c) (Star.create (some a)) :=
  ⟨rfl, rfl, rfl, rfl, rfl, rfl⟩

/-- C4: `is_match` derives the working node with each symbol of the text in
order, left to right (a fold of the total derivative `derive1`, which agrees
with `derive` since `derive` never returns null), and returns
`is_contain_eps` of the final node; on empty text it returns
`is_contain_eps` of the root with zero derivations. -/
theorem c4_is_match_fold (root : Regex) (text : List Char) :
    is_match (some root) text =
      some ((text.foldl Regex.derive1 root).is_contain_eps) ∧
    is_match (some root) [] = some root.is_contain_eps := by
  constructor
  · unfold is_match
    rw [foldl_deriveOpt]
  · rfl

/-- C5: nullability is computed structurally: Empty, literals are not
nullable, Epsilon and Star always are, Or is the disjunction and Concat the
conjunction of the operands' nullability. -/
theorem c5_is_contain_eps_rules (a b : Regex) (x : Char) :
    Regex.emp.is_contain_eps = false ∧
    Regex.eps.is_contain_eps = true ∧
    (Regex.char x).is_contain_eps = false ∧
    (Regex.or a b).is_contain_eps = (a.is_contain_eps || b.is_contain_eps) ∧
    (Regex.concat a b).is_contain_eps = (a.is_contain_eps && b.is_contain_eps) ∧
    (Regex.star a).is_contain_eps = true :=
  ⟨rfl, rfl, rfl, rfl, rfl, rfl⟩

/-- C6: the claim says every pattern whose stacks do not reduce to one
operand raises a SyntaxError, naming `a|`, `|a` and the empty pattern.  The
empty pattern does throw `runtime_error("Invalid regex")`, but on `a|` the
final drain applies `|` with a single operand on the stack, so the code pops
an empty `std::stack` (undefined behaviour), never reaching any throw. -/
theorem c6_malformed_underflow_eval :
    parse_regex ("a|".toList) = .error .stackUnderflow ∧
    parse_regex ("".toList) = .error (.syntaxError "Invalid regex") :=
  ⟨rfl, rfl⟩

/-- C7: the claim says every top/pop of the operand stack happens on a
non-empty stack, explicitly including `()`, `a|` and `|a`.  On `()` the `)`
branch reads `operands.top()` with an empty operand stack, and on `|a` the
final drain pops two operands when only one exists: the `none` branch of a
total embedding is reached. -/
theorem c7_empty_stack_access_eval :
    parse_regex ("()".toList) = .error .stackUnderflow ∧
    parse_regex ("|a".toList) = .error .stackUnderflow :=
  ⟨rfl, rfl⟩

/-- C8: the smart constructors satisfy the identity and elision laws:
`Or.create(a, a)` on the identical operand returns `a` itself,
`Concat.create` with an absent operand returns the other operand unchanged,
and `Star.create(absent)` returns the Epsilon singleton. -/
theorem c8_smart_constructor_laws (a b : Regex) :
    Or.create (some a) (some a) = some a ∧
    Concat.create none (some b) = some b ∧
    Concat.create (some a) none = some a ∧
    Star.create none = some Regex.eps := by
  refine ⟨?_, rfl, rfl, rfl⟩
  simp [Or.create]

/-- C9: smart-constructor calls are interned by operand identity: in the
store-level model with explicit pointers and caches, a second call of
`Or::create`, `Concat::create` or `Star::create` with the same operand
pointers returns the same pointer as the first call and leaves the store
unchanged (the first call either short-circuited, hit the cache, or
populated it). -/
theorem c9_create_interned (st : Intern.Store) (a b : Option Nat) :
    Intern.Or.create a b (Intern.Or.create a b st).2 = Intern.Or.create a b st ∧
    Intern.Concat.create a b (Intern.Concat.create a b st).2 =
      Intern.Concat.create a b st ∧
    Intern.Star.create a (Intern.Star.create a st).2 = Intern.Star.create a st := by
  refine ⟨?_, ?_, ?_⟩
  · cases a with
    | none => rfl
    | some x =>
      cases b with
      | none => rfl
      | some y =>
        by_cases hxy : x = y
        · simp [Intern.Or.create, hxy]
        · cases hfind : Intern.assocFind (Intern.RegexKey.mk "Or" x y) st.orCache with
          | some p => simp [Intern.Or.create, hxy, hfind]
          | none => simp [Intern.Or.create, hxy, hfind, Intern.assocFind]
  · cases a with
    | none => rfl
    | some x =>
      cases b with
      | none => rfl
      | some y =>
        cases hfind : Intern.assocFind (Intern.RegexKey.mk "Concat" x y) st.concatCache with
        | some p => simp [Intern.Concat.create, hfind]
        | none => simp [Intern.Concat.create, hfind, Intern.assocFind]
  · cases a with
    | none => rfl
    | some x =>
      cases hfind : Intern.assocFind x st.starCache with
      | some p => simp [Intern.Star.create, hfind]
      | none => simp [Intern.Star.create, hfind, Intern.assocFind]

/-- C10: the end-to-end concrete scenarios: `ab*` matches `a` and `abbb` but
not `b`; `(a|b)+` rejects the empty text and matches `aabba`. -/
theorem c10_concrete_scenarios :
    run_match "ab*" "a" = .ok (some true) ∧
    run_match "ab*" "abbb" = .ok (some true) ∧
    run_match "ab*" "b" = .ok (some false) ∧
    run_match "(a|b)+" "" = .ok (some false) ∧
    run_match "(a|b)+" "aabba" = .ok (some true) :=
  ⟨rfl, rfl, rfl, rfl, rfl⟩

